import Mathlib

/-!
# Verification of the SwimScraper normalization layer

Shallow embedding of the data-normalization and identifier-mapping layer of
`SwimScraper.py`: the event codec (`events`, `getEventName`, `getEventID`,
`_gender_code`, `_event_token_from_record`), the record flattener
(`getSwimmerEventTokens`, `getSwimmerAllTimes`, `getSwimmerFastestTimesClean`,
`convertTime`, `getState`, `getCity`, `cleanName`), the reference-table lookup
(`load_teams`, `getTeamID`, `getTeamName`).

Python dynamic values that the code manipulates (dict fields, `None`,
strings, ints) are embedded as the inductive type `PyVal`; dicts as
association lists; functions that can raise return `Option`/`Except`,
with `none` / `.error` marking the raising executions.  Network fetches are
passed in as explicit function arguments.  Strings are manipulated at the
`List Char` level so that every operation is kernel-computable; Python's
`str.isalpha` / `str.strip` are modelled on ASCII characters, which covers
every character class the code distinguishes.
-/

/-- Embedded Python value: `None`, a string, or an integer.  These are the
only shapes of values the modelled code paths store in records. -/
inductive PyVal where
  | null : PyVal
  | str : String → PyVal
  | int : Int → PyVal
deriving DecidableEq, Repr

/-- Python truthiness for `PyVal` (`bool(v)`): `None` is falsy, a string is
truthy iff non-empty, an int is truthy iff non-zero. -/
def truthy : PyVal → Bool
  | .null => false
  | .str s => !(s.data.isEmpty)
  | .int n => n != 0

/-- Python `a or b` on embedded values: returns `a` when truthy, else `b`. -/
def pyOr (a b : PyVal) : PyVal := if truthy a then a else b

/-- Python `str(v)` for the embedded values (`str(None) = "None"`). -/
def pyStr : PyVal → String
  | .null => "None"
  | .str s => s
  | .int n => toString n

/-- A Python dict record, as an association list (no duplicate keys arise
in the modelled code). -/
abbrev Record := List (String × PyVal)

/-- Python `rec.get(k)`: the value at key `k`, or `None` when absent. -/
def pyGet (rec : Record) (k : String) : PyVal :=
  match rec.find? (fun p => p.1 == k) with
  | some p => p.2
  | none => .null

/-- Python `str.strip()` on a character list: drop whitespace at both ends. -/
def listTrim (cs : List Char) : List Char :=
  ((cs.dropWhile Char.isWhitespace).reverse.dropWhile Char.isWhitespace).reverse

/-- Python `s.split(c)` for a single-character separator: always returns at
least one (possibly empty) segment; `"".split(c) = [""]`. -/
def splitChar (c : Char) : List Char → List (List Char)
  | [] => [[]]
  | x :: xs =>
      if x = c then [] :: splitChar c xs
      else
        match splitChar c xs with
        | [] => [[x]]
        | h :: t => (x :: h) :: t

/-- Python `s.split()` (no argument): split on whitespace runs, dropping
empty segments; whitespace-only input yields `[]`. -/
def splitWs (cs : List Char) : List (List Char) :=
  (splitChar ' ' (cs.map (fun c => if c.isWhitespace then ' ' else c))).filter
    (fun seg => !seg.isEmpty)

/-- Python `s.isalpha()`: non-empty and every character alphabetic. -/
def pyIsAlpha (cs : List Char) : Bool :=
  !cs.isEmpty && cs.all Char.isAlpha

/-- Decimal digit run: leading digits and the rest. -/
def spanDigits (cs : List Char) : List Char × List Char :=
  (cs.takeWhile Char.isDigit, cs.dropWhile Char.isDigit)

/-- Value of a decimal digit string. -/
def digitsToNat (ds : List Char) : Nat :=
  ds.foldl (fun a c => a * 10 + (c.toNat - 48)) 0

/-- The shape of a finite decimal float literal: sign, integer-part digits,
fractional-part digits, optional exponent (sign, digits). -/
structure FloatLit where
  sgn : Int
  ip : List Char
  fp : List Char
  ex : Option (Int × List Char)
deriving DecidableEq, Repr

/-- Exponent suffix after `e`/`E`: optional sign then at least one digit,
consuming the whole rest. -/
def expPart (r : List Char) : Option (Int × List Char) :=
  let es : Int × List Char :=
    match r with
    | '+' :: r2 => (1, r2)
    | '-' :: r2 => (-1, r2)
    | _ => (1, r)
  let (ed, rest3) := spanDigits es.2
  if ed.isEmpty || !rest3.isEmpty then none else some (es.1, ed)

/-- Modelled Python `float(s)` literal syntax on finite decimal literals:
optional sign, integer part, optional fractional part (at least one digit
overall), optional decimal exponent; surrounding whitespace is stripped as
`float` does.  `none` models `float` raising `ValueError`.  (Digit-group
underscores and `inf`/`nan` literals are outside the modelled fragment; no
modelled code path reaches `float` with them.) -/
def pyFloatParse (cs0 : List Char) : Option FloatLit :=
  let cs := listTrim cs0
  let sgn : Int × List Char :=
    match cs with
    | '+' :: r => (1, r)
    | '-' :: r => (-1, r)
    | _ => (1, cs)
  let (ip, rest1) := spanDigits sgn.2
  let fpRest : List Char × List Char :=
    match rest1 with
    | '.' :: r => spanDigits r
    | _ => ([], rest1)
  if ip.isEmpty && fpRest.1.isEmpty then none
  else
    match fpRest.2 with
    | [] => some ⟨sgn.1, ip, fpRest.1, none⟩
    | 'e' :: r => (expPart r).map (fun e => ⟨sgn.1, ip, fpRest.1, some e⟩)
    | 'E' :: r => (expPart r).map (fun e => ⟨sgn.1, ip, fpRest.1, some e⟩)
    | _ => none

/-- Exact rational value of a parsed float literal. -/
def floatVal (f : FloatLit) : ℚ :=
  (f.sgn : ℚ) * ((digitsToNat f.ip : ℚ) + (digitsToNat f.fp : ℚ) / (10 : ℚ) ^ f.fp.length)
    * match f.ex with
      | none => 1
      | some (es, ed) => (10 : ℚ) ^ (es * (digitsToNat ed : Int))

/-- Modelled Python `float(s)`: parse the literal, take its exact value. -/
def pyFloat (cs0 : List Char) : Option ℚ :=
  (pyFloatParse cs0).map floatVal

/-- `convertTime(display_time)` (SwimScraper.py lines 600-613): strip; if a
colon is present, split at the first colon and return `minutes*60+seconds`;
else if the string is alphabetic return `None` (modelled `some none`); else
parse as a float.  The outer `none` models the call raising `ValueError`. -/
def convertTime (s : String) : Option (Option ℚ) :=
  let t := listTrim s.data
  if ':' ∈ t then
    let m := t.takeWhile (fun c => c != ':')
    let r := (t.dropWhile (fun c => c != ':')).tail
    match pyFloat m, pyFloat r with
    | some qm, some qr => some (some (qm * 60 + qr))
    | _, _ => none
  else if pyIsAlpha t then some none
  else (pyFloat t).map some

/-- `getState(hometown)` (lines 586-590): take the last comma-delimited
segment, strip it; return it if `isalpha`, else `"NONE"`. -/
def getState (hometown : String) : String :=
  let seg := listTrim ((splitChar ',' hometown.data).getLastD [])
  if pyIsAlpha seg then String.mk seg else "NONE"

/-- `getCity(hometown)` (lines 593-597): drop the last comma-delimited
segment, strip each remaining segment, join with single spaces. -/
def getCity (hometown : String) : String :=
  String.mk (List.intercalate [' ']
    (((splitChar ',' hometown.data).dropLast).map listTrim))

/-- `cleanName(name)` (lines 525-549).  The argument is `Option String`
(`none` models Python `None`).  The result `none` models the call raising
`IndexError` at `tokens[0]`. -/
def cleanName (name : Option String) : Option String :=
  match name with
  | none => some ""
  | some s0 =>
    if s0.data.isEmpty then some ""
    else
      let s := listTrim s0.data
      if ',' ∈ s then
        let parts := ((splitChar ',' s).map listTrim).filter (fun p => !p.isEmpty)
        match parts with
        | [last, first] => some (String.mk (listTrim (first ++ ' ' :: last)))
        | _ => some (String.mk (List.intercalate [' '] parts))
      else
        let tokens := splitWs s
        if tokens.length ≤ 1 then tokens.head?.map String.mk
        else some (String.mk (List.intercalate [' '] tokens))

/-!  ## Event codec (`events`, `getEventName`, `getEventID`)  -/

set_option maxHeartbeats 2000000 in
/-- The fixed event label → legacy code table (SwimScraper.py lines 371-465),
transcribed entry-for-entry; relay codes are Python ints, all other codes
strings, including the `"225 Y"` code with an embedded space. -/
def events : List (String × PyVal) := [
  ("25 Y Free", .str "125Y"),
  ("25 Y Back", .str "225 Y"),
  ("25 Y Breast", .str "325Y"),
  ("25 Y Fly", .str "425Y"),
  ("50 Y Free", .str "150Y"),
  ("75 Y Free", .str "175Y"),
  ("100 Y Free", .str "1100Y"),
  ("125 Y Free", .str "1125Y"),
  ("200 Y Free", .str "1200Y"),
  ("400 Y Free", .str "1400Y"),
  ("500 Y Free", .str "1500Y"),
  ("800 Y Free", .str "1800Y"),
  ("1000 Y Free", .str "11000Y"),
  ("1500 Y Free", .str "11500Y"),
  ("1650 Y Free", .str "11650Y"),
  ("50 Y Back", .str "250Y"),
  ("100 Y Back", .str "2100Y"),
  ("200 Y Back", .str "2200Y"),
  ("50 Y Breast", .str "350Y"),
  ("100 Y Breast", .str "3100Y"),
  ("200 Y Breast", .str "3200Y"),
  ("50 Y Fly", .str "450Y"),
  ("100 Y Fly", .str "4100Y"),
  ("200 Y Fly", .str "4200Y"),
  ("100 Y IM", .str "5100Y"),
  ("200 Y IM", .str "5200Y"),
  ("400 Y IM", .str "5400Y"),
  ("200 Free Relay", .int 6200),
  ("400 Free Relay", .int 6400),
  ("800 Free Relay", .int 6800),
  ("200 Medley Relay", .int 7200),
  ("400 Medley Relay", .int 7400),
  ("1 M Diving", .str "H1"),
  ("1 M Diving (6 dives)", .str "H16"),
  ("3 M Diving ", .str "H3"),
  ("3 M Diving (6 dives)", .str "H36"),
  ("7M Diving", .str "H75"),
  ("7M Diving (5 dives)", .str "H75Y"),
  ("Platform Diving", .str "H2"),
  ("50 Individual", .str "H50"),
  ("100 Individual", .str "H100"),
  ("200 Individual", .str "H200"),
  ("25 S Free", .str "125S"),
  ("25 S Back", .str "225 S"),
  ("25 S Breast", .str "325S"),
  ("25 S Fly", .str "425S"),
  ("50 S Free", .str "150S"),
  ("75 S Free", .str "175S"),
  ("100 S Free", .str "1100S"),
  ("125 S Free", .str "1125S"),
  ("200 S Free", .str "1200S"),
  ("400 S Free", .str "1400S"),
  ("500 S Free", .str "1500S"),
  ("800 S Free", .str "1800S"),
  ("1000 S Free", .str "11000S"),
  ("1500 S Free", .str "11500S"),
  ("1650 S Free", .str "11650S"),
  ("50 S Back", .str "250S"),
  ("100 S Back", .str "2100S"),
  ("200 S Back", .str "2200S"),
  ("50 S Breast", .str "350S"),
  ("100 S Breast", .str "3100S"),
  ("200 S Breast", .str "3200S"),
  ("50 S Fly", .str "450S"),
  ("100 S Fly", .str "4100S"),
  ("200 S Fly", .str "4200S"),
  ("100 S IM", .str "5100S"),
  ("200 S IM", .str "5200S"),
  ("400 S IM", .str "5400S"),
  ("50 L Free", .str "150L"),
  ("100 L Free", .str "1100L"),
  ("200 L Free", .str "1200L"),
  ("400 L Free", .str "1400L"),
  ("500 L Free", .str "1500L"),
  ("800 L Free", .str "1800L"),
  ("1000 L Free", .str "11000L"),
  ("1500 L Free", .str "11500L"),
  ("1650 L Free", .str "11650L"),
  ("50 L Back", .str "250L"),
  ("100 L Back", .str "2100L"),
  ("200 L Back", .str "2200L"),
  ("50 L Breast", .str "350L"),
  ("100 L Breast", .str "3100L"),
  ("200 L Breast", .str "3200L"),
  ("50 L Fly", .str "450L"),
  ("100 L Fly", .str "4100L"),
  ("200 L Fly", .str "4200L"),
  ("100 L IM", .str "5100L"),
  ("200 L IM", .str "5200L"),
  ("400 L IM", .str "5400L")]

/-- `getEventID(event_name)` (lines 582-583): `events.get(event_name)`. -/
def getEventID (event_name : String) : Option PyVal :=
  events.lookup event_name

/-- `getEventName(event_ID)` (lines 578-579):
`list(events.keys())[list(events.values()).index(event_ID)]` — the label at
the first position whose value equals `event_ID`; `none` models the
`ValueError` raised by `.index` when the code appears for no label. -/
def getEventName (event_ID : PyVal) : Option String :=
  (events.find? (fun p => p.2 == event_ID)).map (fun p => p.1)

/-!  ## Event token / label from a raw record  -/

/-- `STROKE_CODES` (lines 26-32). -/
def STROKE_CODES : List (String × String) :=
  [("1", "Free"), ("2", "Back"), ("3", "Breast"), ("4", "Fly"), ("5", "IM")]

/-- `_stroke_name(code)` (lines 43-44): `STROKE_CODES.get(str(code), str(code))`. -/
def _stroke_name (code : PyVal) : String :=
  (STROKE_CODES.lookup (pyStr code)).getD (pyStr code)

/-- `_gender_code(eventgender)` (lines 34-41): `"M"` ↦ 1, `"F"` ↦ 2, else 0. -/
def _gender_code (eventgender : PyVal) : Int :=
  if eventgender = .str "M" then 1
  else if eventgender = .str "F" then 2
  else 0

/-- `_event_label_from_record(rec)` (lines 46-51):
`f"{dist} {course} {stroke_name}"`. -/
def _event_label_from_record (rec : Record) : String :=
  pyStr (pyGet rec "eventdistance") ++ " " ++ pyStr (pyGet rec "eventcourse")
    ++ " " ++ _stroke_name (pyGet rec "eventstroke")

/-- `_event_token_from_record(rec)` (lines 53-64):
`f"{gender_code}|{distance}|{course}|{stroke_code}"`. -/
def _event_token_from_record (rec : Record) : String :=
  toString (_gender_code (pyGet rec "eventgender")) ++ "|"
    ++ pyStr (pyGet rec "eventdistance") ++ "|"
    ++ pyStr (pyGet rec "eventcourse") ++ "|"
    ++ pyStr (pyGet rec "eventstroke")

/-!  ## `getSwimmerEventTokens` — distinct events, deduplicated by token  -/

/-- One entry of the list returned by `getSwimmerEventTokens` (lines 194-202). -/
structure TokenEntry where
  swimmer_id : Int
  event_token : String
  event_label : String
  eventdistance : PyVal
  eventstroke : PyVal
  eventcourse : PyVal
  eventgender : PyVal
deriving DecidableEq, Repr

/-- The loop of `getSwimmerEventTokens` (lines 188-202): walk the
fastest-times records, skip a record whose token is in `seen`, otherwise
record the token and emit an entry. -/
def getSwimmerEventTokensGo (sid : Int) :
    List Record → List String → List TokenEntry
  | [], _ => []
  | rec :: rs, seen =>
      let token := _event_token_from_record rec
      if token ∈ seen then getSwimmerEventTokensGo sid rs seen
      else
        { swimmer_id := sid
          event_token := token
          event_label := _event_label_from_record rec
          eventdistance := pyGet rec "eventdistance"
          eventstroke := pyGet rec "eventstroke"
          eventcourse := pyGet rec "eventcourse"
          eventgender := pyGet rec "eventgender" } ::
          getSwimmerEventTokensGo sid rs (token :: seen)

/-- `getSwimmerEventTokens(swimmer_ID)` (lines 175-204), with the
fastest-times response passed explicitly. -/
def getSwimmerEventTokens (sid : Int) (fastest : List Record) : List TokenEntry :=
  getSwimmerEventTokensGo sid fastest []

/-- The sequence of event tokens `getSwimmerAllTimes` fetches, one
`times_by_event` request per entry of `getSwimmerEventTokens` (line 225). -/
def fetchedTokens (sid : Int) (fastest : List Record) : List String :=
  (getSwimmerEventTokens sid fastest).map (fun et => et.event_token)

/-!  ## `getSwimmerAllTimes` — flatten rows, sort  -/

/-- One output row of `getSwimmerAllTimes` (lines 248-262). -/
structure Row where
  swimmer_id : Int
  event_label : String
  eventdistance : PyVal
  eventcourse : PyVal
  eventstroke_name : String
  eventgender : PyVal
  eventtime : PyVal
  dateofswim : PyVal
  meet_name : PyVal
  season_id : PyVal
  heat : PyVal
  lane : PyVal
  place : PyVal
deriving DecidableEq, Repr

/-- The per-record flattening of `getSwimmerAllTimes` (lines 231-262),
with the Python `or` fallbacks for `eventtime`, `dateofswim`, `meet_name`. -/
def flattenAllTimesRec (sid : Int) (label : String) (rec : Record) : Row :=
  { swimmer_id := sid
    event_label := label
    eventdistance := pyGet rec "eventdistance"
    eventcourse := pyGet rec "eventcourse"
    eventstroke_name := _stroke_name (pyGet rec "eventstroke")
    eventgender := pyGet rec "eventgender"
    eventtime := pyOr (pyGet rec "eventtime") (pyGet rec "time")
    dateofswim := pyOr (pyGet rec "dateofswim") (pyGet rec "date_created")
    meet_name := pyOr (pyGet rec "meet_name") (pyGet rec "name")
    season_id := pyGet rec "season_id"
    heat := pyGet rec "heat"
    lane := pyGet rec "lane"
    place := pyGet rec "place" }

/-- Sort key for a date cell: nulls sort after every present value
(`sort_values(..., na_position="last")`); present values are the string
forms the records carry. -/
def dateKey : PyVal → WithTop String
  | .null => ⊤
  | v => (pyStr v : String)

/-- The lexicographic sort key of `df.sort_values(["swimmer_id",
"event_label", "dateofswim"], na_position="last")` (line 268). -/
def rowKey (r : Row) : Int ×ₗ (String ×ₗ WithTop String) :=
  toLex (r.swimmer_id, toLex (r.event_label, dateKey r.dateofswim))

/-- Row comparison used for the final sort of `getSwimmerAllTimes`. -/
def rowLE (a b : Row) : Prop := rowKey a ≤ rowKey b

instance : DecidableRel rowLE :=
  fun a b => inferInstanceAs (Decidable (rowKey a ≤ rowKey b))

instance : IsTotal Row rowLE := ⟨fun a b => le_total (rowKey a) (rowKey b)⟩

instance : IsTrans Row rowLE := ⟨fun _ _ _ h h' => le_trans h h'⟩

/-- `getSwimmerAllTimes(swimmer_ID)` (lines 206-269), with the two network
dependencies passed explicitly: `fastest` is the `profile_fastest_times`
response, `fetch` the `times_by_event` call, whose `.error` result models
`getSwimmerTimesByEventJSON` raising — in which case the `except` branch
(lines 226-229) logs and `continue`s, contributing no rows for that
event. -/
def getSwimmerAllTimes (sid : Int) (fetch : String → Except String (List Record))
    (fastest : List Record) : List Row :=
  let rows := (getSwimmerEventTokens sid fastest).flatMap (fun et =>
    match fetch et.event_token with
    | .ok recs => recs.map (flattenAllTimesRec sid et.event_label)
    | .error _ => [])
  List.insertionSort rowLE rows

/-!  ## `getSwimmerFastestTimesClean`  -/

/-- One output row of `getSwimmerFastestTimesClean` (lines 286-297). -/
structure FastRow where
  swimmer_id : Int
  event_label : String
  eventdistance : PyVal
  eventcourse : PyVal
  eventstroke_name : String
  eventgender : PyVal
  eventtime : PyVal
  dateofswim : PyVal
  meet_name : PyVal
  season_id : PyVal
deriving DecidableEq, Repr

/-- The per-record flattening of `getSwimmerFastestTimesClean`
(lines 283-297), with the same Python `or` fallbacks. -/
def flattenFastestRec (sid : Int) (rec : Record) : FastRow :=
  { swimmer_id := sid
    event_label := _event_label_from_record rec
    eventdistance := pyGet rec "eventdistance"
    eventcourse := pyGet rec "eventcourse"
    eventstroke_name := _stroke_name (pyGet rec "eventstroke")
    eventgender := pyGet rec "eventgender"
    eventtime := pyOr (pyGet rec "eventtime") (pyGet rec "time")
    dateofswim := pyOr (pyGet rec "dateofswim") (pyGet rec "date_created")
    meet_name := pyOr (pyGet rec "meet_name") (pyGet rec "name")
    season_id := pyGet rec "season_id" }

/-- Sort comparison of `sort_values(["swimmer_id", "event_label"])`
(line 303). -/
def fastRowLE (a b : FastRow) : Prop :=
  toLex (a.swimmer_id, a.event_label) ≤ toLex (b.swimmer_id, b.event_label)

instance : DecidableRel fastRowLE :=
  fun a b => inferInstanceAs
    (Decidable (toLex (a.swimmer_id, a.event_label) ≤ toLex (b.swimmer_id, b.event_label)))

/-- `getSwimmerFastestTimesClean(swimmer_ID)` (lines 271-304), with the
fastest-times response passed explicitly. -/
def getSwimmerFastestTimesClean (sid : Int) (fastest : List Record) : List FastRow :=
  List.insertionSort fastRowLE (fastest.map (flattenFastestRec sid))

/-!  ## Teams reference table  -/

/-- The two key columns of a teams-table row that the lookups read. -/
structure TeamRow where
  team_name : PyVal
  team_ID : PyVal
deriving DecidableEq, Repr

/-- `getTeamID(team_name)` (lines 552-558): iterate all rows, overwrite
the result on every match, start from `-1`. -/
def getTeamID (teams : List TeamRow) (team_name : PyVal) : PyVal :=
  teams.foldl (fun acc row => if row.team_name = team_name then row.team_ID else acc)
    (.int (-1))

/-- `getTeamName(team_ID)` (lines 561-567): iterate all rows, overwrite
the result on every match, start from `""`. -/
def getTeamName (teams : List TeamRow) (team_ID : PyVal) : PyVal :=
  teams.foldl (fun acc row => if row.team_ID = team_ID then row.team_name else acc)
    (.str "")

/-!  ## `load_teams`  -/

/-- A pandas DataFrame, reduced to what `load_teams` observes: named
columns and rows of cells aligned with them. -/
structure Frame where
  cols : List String
  rows : List (List PyVal)
deriving DecidableEq, Repr

/-- The states of the backing CSV that `load_teams` distinguishes:
missing file, zero-byte file, a file `pd.read_csv` rejects with
`EmptyDataError` (no parseable columns), or a parsed table. -/
inductive TeamsCsv where
  | missing : TeamsCsv
  | emptyFile : TeamsCsv
  | noColumns : TeamsCsv
  | parsed : List String → List (List PyVal) → TeamsCsv
deriving DecidableEq, Repr

/-- `expected_cols` (lines 325-333). -/
def expected_cols : List String :=
  ["team_name", "team_ID", "team_state", "team_division", "team_division_ID",
   "team_conference", "team_conference_ID"]

/-- Cell of a parsed frame at column `c`: the aligned value, or `None` for
a column the parse did not produce (the `df[col] = None` loop). -/
def colVal (cols : List String) (row : List PyVal) (c : String) : PyVal :=
  match cols.indexOf? c with
  | some i => row.getD i .null
  | none => .null

/-- `load_teams(path)` (lines 314-353): the three degenerate CSV states
return an empty frame with the expected columns; a parsed table gets every
missing expected column added as `None` and is then restricted to
`expected_cols` in order (`df[expected_cols]`). -/
def load_teams : TeamsCsv → Frame
  | .missing => ⟨expected_cols, []⟩
  | .emptyFile => ⟨expected_cols, []⟩
  | .noColumns => ⟨expected_cols, []⟩
  | .parsed cols rows =>
      ⟨expected_cols, rows.map (fun row => expected_cols.map (colVal cols row))⟩

/-!  ## Spec-side predicates for the `convertTime` input classification  -/

/-- Spec predicate: the stripped input has the colon form `M:SS.ss` — a colon
is present and both sides of the first colon parse as floats. -/
def colonNumericForm (s : String) : Prop :=
  ':' ∈ listTrim s.data
  ∧ (pyFloat ((listTrim s.data).takeWhile (fun c => c != ':'))).isSome = true
  ∧ (pyFloat (((listTrim s.data).dropWhile (fun c => c != ':')).tail)).isSome = true

/-- Spec predicate: the stripped input is a purely alphabetic code
(Python `isalpha`: non-empty, all characters alphabetic). -/
def alphaCodeForm (s : String) : Prop :=
  pyIsAlpha (listTrim s.data) = true

/-- Spec predicate: the stripped input is a plain numeric string
(no colon, parses as a float). -/
def plainNumericForm (s : String) : Prop :=
  ':' ∉ listTrim s.data ∧ (pyFloat (listTrim s.data)).isSome = true

/-!  ## Concrete example data  -/

/-- Synthetic fastest-times record: M 50 Y Free. -/
def exRecA : Record :=
  [("eventgender", .str "M"), ("eventdistance", .int 50), ("eventcourse", .str "Y"),
   ("eventstroke", .int 1), ("eventtime", .str "20.11"), ("dateofswim", .str "2023-01-05")]

/-- Synthetic fastest-times record: same event token as `exRecA`. -/
def exRecB : Record :=
  [("eventgender", .str "M"), ("eventdistance", .int 50), ("eventcourse", .str "Y"),
   ("eventstroke", .int 1), ("eventtime", .str "20.45"), ("dateofswim", .str "2022-11-01")]

/-- Synthetic fastest-times record: M 100 Y Free, no date. -/
def exRecC : Record :=
  [("eventgender", .str "M"), ("eventdistance", .int 100), ("eventcourse", .str "Y"),
   ("eventstroke", .int 1), ("eventtime", .str "44.80")]

/-- A synthetic fastest-times response: 3 records spanning 2 distinct event
tokens (`"1|50|Y|1"` twice, `"1|100|Y|1"` once). -/
def exFastest : List Record := [exRecA, exRecB, exRecC]

/-- A fetch that fails on the 100-free token and succeeds elsewhere. -/
def exFetch : String → Except String (List Record) :=
  fun t => if t = "1|100|Y|1" then .error "boom" else .ok [exRecA, exRecB]

/-- Record with `eventtime` present but falsy (empty string). -/
def cexRec : Record :=
  [("eventtime", .str ""), ("time", .str "23.14")]

/-!  ## Shared helper lemmas  -/

/-- An overwrite-on-match `foldl` returns the image of the last matching
element, or the seed when nothing matches. -/
theorem foldl_lastMatch {α β : Type _} (p : α → Bool) (f : α → β) :
    ∀ (l : List α) (d : β),
      l.foldl (fun acc r => if p r then f r else acc) d
        = ((l.reverse.find? p).map f).getD d := by
  intro l
  induction l with
  | nil => intro d; rfl
  | cons x xs ih =>
    intro d
    simp only [List.foldl_cons, List.reverse_cons, List.find?_append, ih]
    cases hfind : xs.reverse.find? p with
    | some a => simp [hfind, Option.or]
    | none =>
      simp only [hfind, Option.none_or]
      by_cases hx : p x
      · simp [List.find?, hx]
      · simp [List.find?, hx]

/-- Tokens produced by the dedup loop of `getSwimmerEventTokens`: exactly
the record tokens not already in `seen`. -/
theorem mem_go_tokens (sid : Int) :
    ∀ (l : List Record) (seen : List String) (t : String),
      (t ∈ (getSwimmerEventTokensGo sid l seen).map (fun e => e.event_token)
        ↔ t ∈ l.map _event_token_from_record ∧ t ∉ seen) := by
  intro l
  induction l with
  | nil => intro seen t; simp [getSwimmerEventTokensGo]
  | cons rec rs ih =>
    intro seen t
    simp only [getSwimmerEventTokensGo]
    by_cases hs : _event_token_from_record rec ∈ seen
    · simp only [if_pos hs, ih, List.map_cons, List.mem_cons]
      constructor
      · rintro ⟨hm, hns⟩; exact ⟨Or.inr hm, hns⟩
      · rintro ⟨hor, hns⟩
        rcases hor with heq | hm
        · exact absurd (heq ▸ hs) hns
        · exact ⟨hm, hns⟩
    · simp only [if_neg hs, List.map_cons, List.mem_cons, ih]
      constructor
      · rintro (heq | ⟨hm, hns⟩)
        · exact ⟨Or.inl heq, fun hin => hs (heq ▸ hin)⟩
        · exact ⟨Or.inr hm, fun hin => hns (Or.inr hin)⟩
      · rintro ⟨heq | hm, hns⟩
        · exact Or.inl heq
        · by_cases ht : t = _event_token_from_record rec
          · exact Or.inl ht
          · exact Or.inr ⟨hm, fun hin => hin.elim ht hns⟩

/-- The dedup loop of `getSwimmerEventTokens` never emits a token twice. -/
theorem go_tokens_nodup (sid : Int) :
    ∀ (l : List Record) (seen : List String),
      ((getSwimmerEventTokensGo sid l seen).map (fun e => e.event_token)).Nodup := by
  intro l
  induction l with
  | nil => intro seen; simp [getSwimmerEventTokensGo]
  | cons rec rs ih =>
    intro seen
    simp only [getSwimmerEventTokensGo]
    by_cases hs : _event_token_from_record rec ∈ seen
    · simpa [if_pos hs] using ih seen
    · simp only [if_neg hs, List.map_cons, List.nodup_cons]
      refine ⟨fun hmem => ?_, ih _⟩
      have := (mem_go_tokens sid rs (_event_token_from_record rec :: seen)
        (_event_token_from_record rec)).mp hmem
      exact this.2 (List.mem_cons_self _ _)

/-- A list containing a non-alphabetic character is not `isalpha`. -/
theorem pyIsAlpha_false_of_mem {t : List Char} {c : Char} (hmem : c ∈ t)
    (hc : c.isAlpha = false) : pyIsAlpha t = false := by
  cases h : pyIsAlpha t with
  | false => rfl
  | true =>
    exfalso
    unfold pyIsAlpha at h
    have hall := (Bool.and_eq_true _ _).mp h |>.2
    have := List.all_eq_true.mp hall c hmem
    rw [hc] at this
    exact Bool.false_ne_true this

/-- `rec.get(k)` of a key absent from the record is `None`. -/
theorem pyGet_eq_null {rec : Record} {k : String}
    (h : rec.find? (fun p => p.1 == k) = none) : pyGet rec k = .null := by
  unfold pyGet
  rw [h]

/-!  ## Claim theorems  -/

/-- C1: `getSwimmerAllTimes` issues exactly one `times_by_event` fetch per
distinct event token of the fastest-times response (the fetched token list
has no duplicates and contains exactly the tokens derived from the
records), and the returned row list is sorted ascending by
(swimmer_id, event_label, dateofswim) with null dates last (`rowLE`).
Concretely, the 3-record response `exFastest` spanning 2 distinct tokens
yields exactly 2 fetches. -/
theorem getSwimmerAllTimes_one_fetch_per_token_and_sorted :
    (∀ (sid : Int) (fastest : List Record),
        (fetchedTokens sid fastest).Nodup
        ∧ ∀ t, t ∈ fetchedTokens sid fastest ↔ t ∈ fastest.map _event_token_from_record)
    ∧ (∀ (sid : Int) (fetch : String → Except String (List Record)) (fastest : List Record),
        List.Sorted rowLE (getSwimmerAllTimes sid fetch fastest))
    ∧ (exFastest.length = 3 ∧ (exFastest.map _event_token_from_record).dedup.length = 2
        ∧ (fetchedTokens 7 exFastest).length = 2) := by
  refine ⟨fun sid fastest => ⟨go_tokens_nodup sid fastest [], fun t => ?_⟩,
    fun sid fetch fastest => ?_, by decide⟩
  · have := mem_go_tokens sid fastest [] t
    simpa [fetchedTokens, getSwimmerEventTokens] using this
  · exact List.sorted_insertionSort rowLE _

/-- C2: every (label, code) entry of the fixed `events` table round-trips —
`getEventID` returns the stored code and `getEventName` recovers the
original label, including the anomalous `"25 Y Back" ↦ "225 Y"` entry —
and `getEventName` fails (returns `none`, modelling the `ValueError` of
`.index`) on every code that appears for no label. -/
theorem events_roundtrip_and_unknown_code_fails :
    (∀ p ∈ events, getEventID p.1 = some p.2 ∧ getEventName p.2 = some p.1)
    ∧ (∀ c : PyVal, c ∉ events.map Prod.snd → getEventName c = none)
    ∧ getEventID "25 Y Back" = some (.str "225 Y")
    ∧ getEventName (.str "225 Y") = some "25 Y Back" := by
  refine ⟨by decide, fun c hc => ?_, by decide, by decide⟩
  unfold getEventName
  rw [List.find?_eq_none.mpr, Option.map_none']
  intro p hp
  simp only [beq_iff_eq]
  intro heq
  exact hc (heq ▸ List.mem_map_of_mem Prod.snd hp)

/-- C2 witness: the `"25 Y Free"` entry round-trips, and the unused code
`"ZZZ"` makes `getEventName` fail. -/
theorem events_roundtrip_and_unknown_code_fails_witness :
    (getEventID "25 Y Free" = some (.str "125Y")
      ∧ getEventName (.str "125Y") = some "25 Y Free")
    ∧ getEventName (.str "ZZZ") = none :=
  ⟨events_roundtrip_and_unknown_code_fails.1 ("25 Y Free", .str "125Y") (by decide),
   events_roundtrip_and_unknown_code_fails.2.1 (.str "ZZZ") (by decide)⟩

/-- C3: when the per-event fetch raises for token `t0`, `getSwimmerAllTimes`
returns exactly what it would return had that event yielded no rows — the
failing event is skipped, every other event's rows are still produced; and
every row of any successfully fetched event is in the returned row set. -/
theorem getSwimmerAllTimes_fetch_failure_skips_only_that_event :
    ∀ (sid : Int) (fastest : List Record) (fetch : String → Except String (List Record))
      (t0 msg : String),
      fetch t0 = .error msg →
      (getSwimmerAllTimes sid fetch fastest
          = getSwimmerAllTimes sid (fun t => if t = t0 then .ok [] else fetch t) fastest)
      ∧ (∀ et ∈ getSwimmerEventTokens sid fastest, ∀ recs, fetch et.event_token = .ok recs →
          ∀ rec ∈ recs,
            flattenAllTimesRec sid et.event_label rec ∈ getSwimmerAllTimes sid fetch fastest) := by
  intro sid fastest fetch t0 msg hfail
  constructor
  · unfold getSwimmerAllTimes
    dsimp only
    congr 1
    refine congrArg (List.flatMap (getSwimmerEventTokens sid fastest)) (funext fun et => ?_)
    by_cases h : et.event_token = t0
    · rw [h, hfail]
      simp
    · simp [h]
  · intro et hmem recs hok rec hrec
    unfold getSwimmerAllTimes
    have hperm := List.perm_insertionSort rowLE
      ((getSwimmerEventTokens sid fastest).flatMap (fun et =>
        match fetch et.event_token with
        | .ok recs => recs.map (flattenAllTimesRec sid et.event_label)
        | .error _ => []))
    apply hperm.mem_iff.mpr
    apply List.mem_flatMap.mpr
    refine ⟨et, hmem, ?_⟩
    rw [hok]
    exact List.mem_map_of_mem _ hrec

/-- C3 witness: with `exFetch` failing on the 100-free token, the call
returns the same rows as the fetch that yields no rows for that token. -/
theorem getSwimmerAllTimes_fetch_failure_skips_only_that_event_witness :
    getSwimmerAllTimes 7 exFetch exFastest
      = getSwimmerAllTimes 7 (fun t => if t = "1|100|Y|1" then .ok [] else exFetch t)
          exFastest :=
  (getSwimmerAllTimes_fetch_failure_skips_only_that_event 7 exFastest exFetch
    "1|100|Y|1" "boom" rfl).1

/-- C4: `convertTime` parses `"M:SS.ss"` as minutes×60+seconds
(`"1:02.50" ↦ 62.50`), a plain numeric string as seconds (`"23.14" ↦
23.14`), returns `None` for purely alphabetic codes (`"DNS"`, `"DQ"`), and
raises (`= none`) exactly when the input is neither colon-numeric-form,
purely alphabetic, nor plain numeric. -/
theorem convertTime_classification :
    convertTime "1:02.50" = some (some ((125 : ℚ)/2))
    ∧ convertTime "23.14" = some (some ((1157 : ℚ)/50))
    ∧ convertTime "DNS" = some none
    ∧ convertTime "DQ" = some none
    ∧ ∀ s : String,
        (convertTime s = none
          ↔ ¬(colonNumericForm s ∨ alphaCodeForm s ∨ plainNumericForm s)) := by
  refine ⟨?_, ?_, by decide, by decide, fun s => ?_⟩
  · unfold convertTime
    dsimp only
    rw [if_pos (by decide : ':' ∈ listTrim "1:02.50".data)]
    have hm : pyFloat ((listTrim "1:02.50".data).takeWhile (fun c => c != ':'))
        = some (floatVal ⟨1, ['1'], [], none⟩) := by
      unfold pyFloat
      rw [show pyFloatParse ((listTrim "1:02.50".data).takeWhile (fun c => c != ':'))
          = some ⟨1, ['1'], [], none⟩ from by decide]
      rfl
    have hr : pyFloat (((listTrim "1:02.50".data).dropWhile (fun c => c != ':')).tail)
        = some (floatVal ⟨1, ['0', '2'], ['5', '0'], none⟩) := by
      unfold pyFloat
      rw [show pyFloatParse (((listTrim "1:02.50".data).dropWhile (fun c => c != ':')).tail)
          = some ⟨1, ['0', '2'], ['5', '0'], none⟩ from by decide]
      rfl
    rw [hm, hr]
    have h0 : digitsToNat [] = 0 := rfl
    have h1 : digitsToNat ['1'] = 1 := by decide
    have h2 : digitsToNat ['0', '2'] = 2 := by decide
    have h3 : digitsToNat ['5', '0'] = 50 := by decide
    norm_num [floatVal, h0, h1, h2, h3]
  · unfold convertTime
    dsimp only
    rw [if_neg (by decide : ¬ (':' ∈ listTrim "23.14".data))]
    rw [if_neg (by decide : ¬ (pyIsAlpha (listTrim "23.14".data) = true))]
    rw [show pyFloat (listTrim "23.14".data)
        = some (floatVal ⟨1, ['2', '3'], ['1', '4'], none⟩) from by
      unfold pyFloat
      rw [show pyFloatParse (listTrim "23.14".data)
          = some ⟨1, ['2', '3'], ['1', '4'], none⟩ from by decide]
      rfl]
    have h23 : digitsToNat ['2', '3'] = 23 := by decide
    have h14 : digitsToNat ['1', '4'] = 14 := by decide
    simp only [Option.map_some']
    norm_num [floatVal, h23, h14]
  · unfold convertTime colonNumericForm alphaCodeForm plainNumericForm
    dsimp only
    by_cases hc : ':' ∈ listTrim s.data
    · have ha : pyIsAlpha (listTrim s.data) = false :=
        pyIsAlpha_false_of_mem hc (by decide)
      cases hm : pyFloat ((listTrim s.data).takeWhile (fun c => c != ':')) with
      | none => simp [hc, ha, hm]
      | some qm =>
        cases hr : pyFloat (((listTrim s.data).dropWhile (fun c => c != ':')).tail) with
        | none => simp [hc, ha, hm, hr]
        | some qr => simp [hc, ha, hm, hr]
    · by_cases ha : pyIsAlpha (listTrim s.data)
      · simp [hc, ha]
      · cases hp : pyFloat (listTrim s.data) with
        | none => simp [hc, ha, hp]
        | some q => simp [hc, ha, hp]

/-- C4 witness: the classification applied at `"x2"` (neither colon-form,
alphabetic, nor numeric) shows the call raises. -/
theorem convertTime_classification_witness :
    convertTime "x2" = none :=
  (convertTime_classification.2.2.2.2 "x2").mpr (by
    unfold colonNumericForm alphaCodeForm plainNumericForm
    decide)

/-- C5 (amended): in both flatteners the output `eventtime` equals the
record's `eventtime` value when that value is truthy and falls back to the
`time` value when `eventtime` is absent **or falsy** (Python `or`);
likewise `dateofswim` → `date_created` and `meet_name` → `name`; a missing
optional field resolves to `None`, never an error. -/
theorem flatten_fallback_fields :
    ∀ (sid : Int) (label : String) (rec : Record),
      (truthy (pyGet rec "eventtime") = true →
          (flattenAllTimesRec sid label rec).eventtime = pyGet rec "eventtime"
          ∧ (flattenFastestRec sid rec).eventtime = pyGet rec "eventtime")
      ∧ (truthy (pyGet rec "eventtime") = false →
          (flattenAllTimesRec sid label rec).eventtime = pyGet rec "time"
          ∧ (flattenFastestRec sid rec).eventtime = pyGet rec "time")
      ∧ (truthy (pyGet rec "dateofswim") = true →
          (flattenAllTimesRec sid label rec).dateofswim = pyGet rec "dateofswim"
          ∧ (flattenFastestRec sid rec).dateofswim = pyGet rec "dateofswim")
      ∧ (truthy (pyGet rec "dateofswim") = false →
          (flattenAllTimesRec sid label rec).dateofswim = pyGet rec "date_created"
          ∧ (flattenFastestRec sid rec).dateofswim = pyGet rec "date_created")
      ∧ (truthy (pyGet rec "meet_name") = true →
          (flattenAllTimesRec sid label rec).meet_name = pyGet rec "meet_name"
          ∧ (flattenFastestRec sid rec).meet_name = pyGet rec "meet_name")
      ∧ (truthy (pyGet rec "meet_name") = false →
          (flattenAllTimesRec sid label rec).meet_name = pyGet rec "name"
          ∧ (flattenFastestRec sid rec).meet_name = pyGet rec "name")
      ∧ (rec.find? (fun p => p.1 == "eventtime") = none →
          (flattenAllTimesRec sid label rec).eventtime = pyGet rec "time")
      ∧ (rec.find? (fun p => p.1 == "eventtime") = none →
          rec.find? (fun p => p.1 == "time") = none →
          (flattenAllTimesRec sid label rec).eventtime = .null)
      ∧ (rec.find? (fun p => p.1 == "heat") = none →
          (flattenAllTimesRec sid label rec).heat = .null)
      ∧ (rec.find? (fun p => p.1 == "lane") = none →
          (flattenAllTimesRec sid label rec).lane = .null)
      ∧ (rec.find? (fun p => p.1 == "place") = none →
          (flattenAllTimesRec sid label rec).place = .null)
      ∧ (rec.find? (fun p => p.1 == "season_id") = none →
          (flattenAllTimesRec sid label rec).season_id = .null
          ∧ (flattenFastestRec sid rec).season_id = .null) := by
  intro sid label rec
  refine ⟨fun h => ?_, fun h => ?_, fun h => ?_, fun h => ?_, fun h => ?_, fun h => ?_,
    fun h => ?_, fun h h2 => ?_, fun h => ?_, fun h => ?_, fun h => ?_, fun h => ?_⟩
  all_goals
    simp only [flattenAllTimesRec, flattenFastestRec, pyOr]
  · simp [h]
  · simp [h]
  · simp [h]
  · simp [h]
  · simp [h]
  · simp [h]
  · simp [pyGet_eq_null h, truthy]
  · simp [pyGet_eq_null h, pyGet_eq_null h2, truthy]
  · exact pyGet_eq_null h
  · exact pyGet_eq_null h
  · exact pyGet_eq_null h
  · exact ⟨pyGet_eq_null h, pyGet_eq_null h⟩

/-- C5 counterexample: in `cexRec` the key `"eventtime"` is present (with
the falsy value `""`), yet the flattened row's `eventtime` is the `"time"`
value — the fallback is not taken only when `eventtime` is absent, so the
claim as stated is false. -/
theorem flatten_eventtime_present_but_overridden :
    (cexRec.find? (fun p => p.1 == "eventtime")).isSome = true
    ∧ pyGet cexRec "eventtime" = .str ""
    ∧ (flattenAllTimesRec 7 "50 Y Free" cexRec).eventtime = .str "23.14"
    ∧ (flattenFastestRec 7 cexRec).eventtime = .str "23.14"
    ∧ (flattenAllTimesRec 7 "50 Y Free" cexRec).eventtime ≠ pyGet cexRec "eventtime" := by
  decide

/-- C5 witness: a truthy `eventtime` passes through (`exRecA`); a falsy
present `eventtime` falls back to `time`, and an absent `heat` is `None`
(`cexRec`). -/
theorem flatten_fallback_fields_witness :
    (flattenAllTimesRec 7 "50 Y Free" exRecA).eventtime = pyGet exRecA "eventtime"
    ∧ (flattenAllTimesRec 7 "50 Y Free" cexRec).eventtime = pyGet cexRec "time"
    ∧ (flattenAllTimesRec 7 "50 Y Free" cexRec).heat = .null :=
  ⟨((flatten_fallback_fields 7 "50 Y Free" exRecA).1 (by decide)).1,
   ((flatten_fallback_fields 7 "50 Y Free" cexRec).2.1 (by decide)).1,
   (flatten_fallback_fields 7 "50 Y Free" cexRec).2.2.2.2.2.2.2.2.1 (by decide)⟩

/-- C6: both team lookups scan the whole table and return the key field of
the **last** matching row (the first match of the reversed table), with
sentinels `-1` / `""` when no row matches. -/
theorem getTeam_lookups_last_match_wins :
    ∀ (teams : List TeamRow) (name idv : PyVal),
      (getTeamID teams name
          = (((teams.reverse.find? (fun r => r.team_name == name)).map
              (fun r => r.team_ID)).getD (.int (-1))))
      ∧ (getTeamName teams idv
          = (((teams.reverse.find? (fun r => r.team_ID == idv)).map
              (fun r => r.team_name)).getD (.str "")))
      ∧ ((∀ r ∈ teams, r.team_name ≠ name) → getTeamID teams name = .int (-1))
      ∧ ((∀ r ∈ teams, r.team_ID ≠ idv) → getTeamName teams idv = .str "") := by
  intro teams name idv
  have hid : getTeamID teams name
      = (((teams.reverse.find? (fun r => r.team_name == name)).map
          (fun r => r.team_ID)).getD (.int (-1))) := by
    unfold getTeamID
    have hfun : (fun (acc : PyVal) (row : TeamRow) =>
          if row.team_name = name then row.team_ID else acc)
        = (fun acc row => if row.team_name == name then row.team_ID else acc) := by
      funext acc row
      by_cases h : row.team_name = name <;> simp [h]
    rw [hfun, foldl_lastMatch (fun r : TeamRow => r.team_name == name) (fun r => r.team_ID)]
  have hname : getTeamName teams idv
      = (((teams.reverse.find? (fun r => r.team_ID == idv)).map
          (fun r => r.team_name)).getD (.str "")) := by
    unfold getTeamName
    have hfun : (fun (acc : PyVal) (row : TeamRow) =>
          if row.team_ID = idv then row.team_name else acc)
        = (fun acc row => if row.team_ID == idv then row.team_name else acc) := by
      funext acc row
      by_cases h : row.team_ID = idv <;> simp [h]
    rw [hfun, foldl_lastMatch (fun r : TeamRow => r.team_ID == idv) (fun r => r.team_name)]
  refine ⟨hid, hname, fun hnone => ?_, fun hnone => ?_⟩
  · rw [hid, List.find?_eq_none.mpr, Option.map_none', Option.getD_none]
    intro r hr
    simpa using hnone r (List.mem_reverse.mp hr)
  · rw [hname, List.find?_eq_none.mpr, Option.map_none', Option.getD_none]
    intro r hr
    simpa using hnone r (List.mem_reverse.mp hr)

/-- C6 witness: on a one-row table with no matching key, both lookups
return their sentinels. -/
theorem getTeam_lookups_last_match_wins_witness :
    getTeamID [⟨.str "A", .int 1⟩] (.str "B") = .int (-1)
    ∧ getTeamName [⟨.str "A", .int 1⟩] (.int 5) = .str "" :=
  ⟨(getTeam_lookups_last_match_wins [⟨.str "A", .int 1⟩] (.str "B") (.int 5)).2.2.1
      (by decide),
   (getTeam_lookups_last_match_wins [⟨.str "A", .int 1⟩] (.str "B") (.int 5)).2.2.2
      (by decide)⟩

/-- C7: for the missing / zero-byte / no-columns CSV states `load_teams`
returns the empty frame with exactly the seven expected columns in order,
and every parsed table is restricted to exactly those columns in order. -/
theorem load_teams_expected_columns :
    load_teams .missing = ⟨expected_cols, []⟩
    ∧ load_teams .emptyFile = ⟨expected_cols, []⟩
    ∧ load_teams .noColumns = ⟨expected_cols, []⟩
    ∧ (∀ (cols : List String) (rows : List (List PyVal)),
        (load_teams (.parsed cols rows)).cols = expected_cols)
    ∧ expected_cols = ["team_name", "team_ID", "team_state", "team_division",
        "team_division_ID", "team_conference", "team_conference_ID"] :=
  ⟨rfl, rfl, rfl, fun _ _ => rfl, rfl⟩

/-- C8: `getState` returns the stripped last comma-delimited segment exactly
when that segment is `isalpha` (non-empty, all alphabetic) and `"NONE"`
otherwise; `getCity` returns the preceding segments, each stripped,
space-joined (empty when none precede).  Concretely `"Austin, TX"` splits
into city `"Austin"`, state `"TX"`, and `"Unknown City, 123"` has state
`"NONE"`. -/
theorem getState_getCity_spec :
    (∀ h : String,
      (pyIsAlpha (listTrim ((splitChar ',' h.data).getLastD [])) = true →
          getState h = String.mk (listTrim ((splitChar ',' h.data).getLastD [])))
      ∧ (pyIsAlpha (listTrim ((splitChar ',' h.data).getLastD [])) = false →
          getState h = "NONE")
      ∧ getCity h = String.mk (List.intercalate [' ']
          (((splitChar ',' h.data).dropLast).map listTrim)))
    ∧ getState "Austin, TX" = "TX" ∧ getCity "Austin, TX" = "Austin"
    ∧ getState "Unknown City, 123" = "NONE"
    ∧ getCity "Unknown City, 123" = "Unknown City" := by
  refine ⟨fun h => ⟨fun ha => ?_, fun ha => ?_, rfl⟩, by decide, by decide, by decide,
    by decide⟩
  · unfold getState
    rw [if_pos ha]
  · unfold getState
    have hcond : ¬ (pyIsAlpha (listTrim ((splitChar ',' h.data).getLastD [])) = true) :=
      fun hc => by rw [hc] at ha; exact absurd ha (by decide)
    rw [if_neg hcond]

/-- C8 witness: the alphabetic branch at `"Austin, TX"` and the
non-alphabetic branch at `"Unknown City, 123"`. -/
theorem getState_getCity_spec_witness :
    getState "Austin, TX" = "TX" ∧ getState "Unknown City, 123" = "NONE" :=
  ⟨((getState_getCity_spec.1 "Austin, TX").1 (by decide)).trans (by decide),
   (getState_getCity_spec.1 "Unknown City, 123").2.1 (by decide)⟩

/-- C9: the event token is
`"{gender_code}|{distance}|{course}|{stroke}"` with the raw field values
passed through `str()` verbatim, and it starts with `"1|"` for `"M"`
records, `"2|"` for `"F"` records, and `"0|"` for any other gender value. -/
theorem event_token_spec :
    ∀ rec : Record,
      (_event_token_from_record rec
          = toString (_gender_code (pyGet rec "eventgender")) ++ "|"
            ++ pyStr (pyGet rec "eventdistance") ++ "|"
            ++ pyStr (pyGet rec "eventcourse") ++ "|"
            ++ pyStr (pyGet rec "eventstroke"))
      ∧ (pyGet rec "eventgender" = .str "M" →
          ∃ rest : List Char, (_event_token_from_record rec).data = '1' :: '|' :: rest)
      ∧ (pyGet rec "eventgender" = .str "F" →
          ∃ rest : List Char, (_event_token_from_record rec).data = '2' :: '|' :: rest)
      ∧ (pyGet rec "eventgender" ≠ .str "M" → pyGet rec "eventgender" ≠ .str "F" →
          ∃ rest : List Char, (_event_token_from_record rec).data = '0' :: '|' :: rest) := by
  intro rec
  refine ⟨rfl, fun h => ?_, fun h => ?_, fun hm hf => ?_⟩
  · refine ⟨(pyStr (pyGet rec "eventdistance") ++ "|"
      ++ pyStr (pyGet rec "eventcourse") ++ "|" ++ pyStr (pyGet rec "eventstroke")).data, ?_⟩
    unfold _event_token_from_record _gender_code
    rw [h]
    have h1 : (toString (1 : Int)).data = ['1'] := rfl
    simp [String.data_append, h1]
  · refine ⟨(pyStr (pyGet rec "eventdistance") ++ "|"
      ++ pyStr (pyGet rec "eventcourse") ++ "|" ++ pyStr (pyGet rec "eventstroke")).data, ?_⟩
    unfold _event_token_from_record _gender_code
    rw [h]
    have h2 : (toString (2 : Int)).data = ['2'] := rfl
    simp [String.data_append, h2]
  · refine ⟨(pyStr (pyGet rec "eventdistance") ++ "|"
      ++ pyStr (pyGet rec "eventcourse") ++ "|" ++ pyStr (pyGet rec "eventstroke")).data, ?_⟩
    unfold _event_token_from_record _gender_code
    rw [if_neg hm, if_neg hf]
    have h0 : (toString (0 : Int)).data = ['0'] := rfl
    simp [String.data_append, h0]

/-- C9 witness: the M-record `exRecA` yields a token starting `"1|"`, and
its token equals the verbatim field interpolation. -/
theorem event_token_spec_witness :
    (_event_token_from_record exRecA
        = toString (_gender_code (pyGet exRecA "eventgender")) ++ "|"
          ++ pyStr (pyGet exRecA "eventdistance") ++ "|"
          ++ pyStr (pyGet exRecA "eventcourse") ++ "|"
          ++ pyStr (pyGet exRecA "eventstroke"))
    ∧ ∃ rest : List Char, (_event_token_from_record exRecA).data = '1' :: '|' :: rest :=
  ⟨(event_token_spec exRecA).1, (event_token_spec exRecA).2.1 (by decide)⟩

/-- C10: `cleanName` maps the empty string and `None` to `""`, but every
non-empty all-whitespace comma-free input reaches `tokens[0]` on an empty
token list and raises `IndexError` (`= none`). -/
theorem cleanName_empty_ok_whitespace_crashes :
    cleanName (some "") = some ""
    ∧ cleanName none = some ""
    ∧ ∀ s : String, s.data ≠ [] → (∀ c ∈ s.data, c.isWhitespace = true) →
        ',' ∉ s.data → cleanName (some s) = none := by
  refine ⟨rfl, rfl, fun s hne hws hnc => ?_⟩
  unfold cleanName
  dsimp only
  rw [if_neg (by simpa using hne)]
  have htrim : listTrim s.data = [] := by
    unfold listTrim
    rw [List.dropWhile_eq_nil_iff.mpr (fun x hx => hws x hx)]
    simp
  rw [htrim]
  rfl

/-- C10 witness: the single-space input crashes. -/
theorem cleanName_empty_ok_whitespace_crashes_witness :
    cleanName (some " ") = none :=
  cleanName_empty_ok_whitespace_crashes.2.2 " " (by decide) (by decide) (by decide)
